import Mathlib

/-!
Verification of the veo_backend job-orchestration core.

Shallow embedding of:
  - the quota ledger (`src/services/quotaService.js`, class `QuotaService`),
  - the job store and orchestrator transitions (`src/services/veoService.js`,
    class `VeoService`),
  - the admission pipelines of the video routes (`src/routes/videoRoutes.js`).

JavaScript maps keyed by strings are embedded as functions `String → Option _`;
the in-memory mutation discipline is embedded as explicit state passing.
JavaScript truthiness, where the source relies on it (`||` defaults, `if (x)`
guards on numbers and strings), is made explicit (`0` and `""` are falsy).
-/

namespace Veo

/-! Section: quota ledger — `src/services/quotaService.js`

`quotaStore` maps a user id to `{ date: 'YYYY-MM-DD', count: number }`.
-/

structure QuotaRec where
  date : String
  count : Nat
deriving DecidableEq, Repr

structure QuotaUsage where
  used : Nat
  limit : Nat
  remaining : Nat
deriving DecidableEq, Repr

def QuotaStore : Type := String → Option QuotaRec

def QuotaStore.set (st : QuotaStore) (uid : String) (r : QuotaRec) : QuotaStore :=
  fun s => if s = uid then some r else st s

/-- Embeds `QuotaService.getQuotaUsage` (quotaService.js:22-36): a pure read.
If there is no record for `uid`, or the stored date differs from `today`,
the result is `{used: 0, limit, remaining: limit}`; otherwise
`{used: count, limit, remaining: max 0 (limit - count)}` (`Nat` subtraction
is exactly `Math.max(0, limit - count)`). -/
def getQuotaUsage (limit : Nat) (today : String) (st : QuotaStore) (uid : String) :
    QuotaUsage :=
  match st uid with
  | none => ⟨0, limit, limit⟩
  | some r => if r.date = today then ⟨r.count, limit, limit - r.count⟩ else ⟨0, limit, limit⟩

inductive QuotaErr where
  | quotaExceeded
deriving DecidableEq, Repr

/-- Embeds `QuotaService.consumeQuota` (quotaService.js:53-83): reads usage; if
`remaining <= 0` it throws `QuotaExceededError` without writing; otherwise it
stores `{date: today, count: used + 1}` and returns the updated usage. -/
def consumeQuota (limit : Nat) (today : String) (st : QuotaStore) (uid : String) :
    QuotaStore × Except QuotaErr QuotaUsage :=
  let usage := getQuotaUsage limit today st uid
  if usage.remaining = 0 then
    (st, .error .quotaExceeded)
  else
    (st.set uid ⟨today, usage.used + 1⟩,
     .ok ⟨usage.used + 1, usage.limit, usage.remaining - 1⟩)

/-- A sequence of `n` consume calls for one identity on one day, recording
for each call `some used` on success and `none` on `QuotaExceeded`. -/
def consumeSeq (limit : Nat) (today uid : String) :
    Nat → QuotaStore → QuotaStore × List (Option Nat)
  | 0, st => (st, [])
  | n + 1, st =>
    match consumeQuota limit today st uid with
    | (st', .ok u) =>
      let r := consumeSeq limit today uid n st'
      (r.1, some u.used :: r.2)
    | (st', .error _) =>
      let r := consumeSeq limit today uid n st'
      (r.1, none :: r.2)

theorem getQuotaUsage_limit (limit : Nat) (today : String) (st : QuotaStore)
    (uid : String) : (getQuotaUsage limit today st uid).limit = limit := by
  unfold getQuotaUsage
  cases st uid with
  | none => rfl
  | some r => by_cases h : r.date = today <;> simp [h]

theorem getQuotaUsage_remaining (limit : Nat) (today : String) (st : QuotaStore)
    (uid : String) :
    (getQuotaUsage limit today st uid).remaining
      = limit - (getQuotaUsage limit today st uid).used := by
  unfold getQuotaUsage
  cases st uid with
  | none => rfl
  | some r => by_cases h : r.date = today <;> simp [h]

theorem getQuotaUsage_set_today (limit : Nat) (today : String) (st : QuotaStore)
    (uid : String) (c : Nat) :
    getQuotaUsage limit today (st.set uid ⟨today, c⟩) uid = ⟨c, limit, limit - c⟩ := by
  simp [getQuotaUsage, QuotaStore.set]

theorem consumeQuota_ok (limit : Nat) (today : String) (st : QuotaStore) (uid : String)
    (h : (getQuotaUsage limit today st uid).used < limit) :
    consumeQuota limit today st uid
      = (st.set uid ⟨today, (getQuotaUsage limit today st uid).used + 1⟩,
         .ok ⟨(getQuotaUsage limit today st uid).used + 1, limit,
              limit - ((getQuotaUsage limit today st uid).used + 1)⟩) := by
  have hr := getQuotaUsage_remaining limit today st uid
  have hl := getQuotaUsage_limit limit today st uid
  unfold consumeQuota
  have hne : (getQuotaUsage limit today st uid).remaining ≠ 0 := by omega
  simp only [hne, if_false]
  rw [hr, hl]
  have : limit - (getQuotaUsage limit today st uid).used - 1
      = limit - ((getQuotaUsage limit today st uid).used + 1) := by omega
  rw [this]

theorem consumeQuota_err (limit : Nat) (today : String) (st : QuotaStore) (uid : String)
    (h : limit ≤ (getQuotaUsage limit today st uid).used) :
    consumeQuota limit today st uid = (st, .error .quotaExceeded) := by
  have hr := getQuotaUsage_remaining limit today st uid
  unfold consumeQuota
  have hz : (getQuotaUsage limit today st uid).remaining = 0 := by omega
  simp [hz]

theorem consumeSeq_spec (limit : Nat) (today uid : String) :
    ∀ (n : Nat) (st : QuotaStore) (u : Nat),
      (getQuotaUsage limit today st uid).used = u → u ≤ limit →
      (consumeSeq limit today uid n st).2
          = (List.range n).map (fun k => if u + k < limit then some (u + k + 1) else none)
        ∧ (getQuotaUsage limit today (consumeSeq limit today uid n st).1 uid).used
          = min (u + n) limit := by
  intro n
  induction n with
  | zero =>
    intro st u hu hle
    simp [consumeSeq, hu]
    omega
  | succ n ih =>
    intro st u hu hle
    by_cases hlt : u < limit
    · have hok := consumeQuota_ok limit today st uid (by omega)
      rw [hu] at hok
      have hset := getQuotaUsage_set_today limit today st uid (u + 1)
      have ihr := ih (st.set uid ⟨today, u + 1⟩) (u + 1) (by rw [hset]) (by omega)
      unfold consumeSeq
      rw [hok]
      dsimp only
      constructor
      · rw [ihr.1, List.range_succ_eq_map, List.map_cons, List.map_map]
        simp only [Function.comp_def]
        have h0 : (if u + 0 < limit then some (u + 0 + 1) else none) = some (u + 1) := by
          simp; omega
        rw [h0]
        congr 1
        apply List.map_congr_left
        intro k _
        have e1 : u + (k + 1) = u + 1 + k := by omega
        rw [e1]
      · rw [ihr.2]
        omega
    · have herr := consumeQuota_err limit today st uid (by omega)
      have ihr := ih st u hu hle
      unfold consumeSeq
      rw [herr]
      dsimp only
      constructor
      · rw [ihr.1, List.range_succ_eq_map, List.map_cons, List.map_map]
        simp only [Function.comp_def]
        have h0 : (if u + 0 < limit then some (u + 0 + 1) else none) = none := by
          simp; omega
        rw [h0]
        congr 1
        apply List.map_congr_left
        intro k _
        have e1 : ¬ (u + (k + 1) < limit) := by omega
        have e2 : ¬ (u + k < limit) := by omega
        rw [if_neg e1, if_neg e2]
      · rw [ihr.2]
        omega

/-- Claim C1: for a sequence of `consume` calls for one identity on one day,
starting from an identity with no usage recorded for today, the first `limit`
calls succeed, the `k`-th returning `used = k` (= previous used + 1); every
further call fails with `QuotaExceeded`; after the whole sequence the stored
daily count is `min n limit`, so it never exceeds the configured limit; and a
consume at an exhausted entry fails returning the store unchanged. -/
theorem claim1_quota_consume_sequence (limit n : Nat) (today uid : String)
    (st st2 : QuotaStore)
    (h0 : (getQuotaUsage limit today st uid).used = 0)
    (h2 : limit ≤ (getQuotaUsage limit today st2 uid).used) :
    (consumeSeq limit today uid n st).2
        = (List.range n).map (fun k => if k < limit then some (k + 1) else none)
      ∧ (getQuotaUsage limit today (consumeSeq limit today uid n st).1 uid).used
        = min n limit
      ∧ consumeQuota limit today st2 uid = (st2, .error .quotaExceeded) := by
  have hmain := consumeSeq_spec limit today uid n st 0 h0 (Nat.zero_le _)
  refine ⟨?_, ?_, consumeQuota_err limit today st2 uid h2⟩
  · rw [hmain.1]
    simp
  · rw [hmain.2]
    simp

theorem claim1_quota_consume_sequence_witness :
    (consumeSeq 2 "2026-10-11" "u1" 4 (fun _ => none)).2
        = [some 1, some 2, none, none]
      ∧ (getQuotaUsage 2 "2026-10-11"
            (consumeSeq 2 "2026-10-11" "u1" 4 (fun _ => none)).1 "u1").used = 2
      ∧ consumeQuota 2 "2026-10-11"
            (fun s => if s = "u1" then some ⟨"2026-10-11", 2⟩ else none) "u1"
          = ((fun s => if s = "u1" then some ⟨"2026-10-11", 2⟩ else none),
             .error .quotaExceeded) := by
  have h := claim1_quota_consume_sequence 2 4 "2026-10-11" "u1" (fun _ => none)
    (fun s => if s = "u1" then some ⟨"2026-10-11", 2⟩ else none)
    (by decide) (by decide)
  exact ⟨h.1.trans (by decide), h.2.1.trans (by decide), h.2.2⟩

/-- Claim C8: for an identity with no quota record for the current day (no
record at all, or only a record for another date), `getQuotaUsage` returns
`{used: 0, limit, remaining: limit}`.  The source function
(quotaService.js:22-36) performs no store writes, which the embedding
reflects: `getQuotaUsage` consumes the store and returns only a usage value. -/
theorem claim8_usage_fresh_identity (limit : Nat) (today : String) (st : QuotaStore)
    (uid : String)
    (h : st uid = none ∨ ∃ r, st uid = some r ∧ r.date ≠ today) :
    getQuotaUsage limit today st uid = ⟨0, limit, limit⟩ := by
  unfold getQuotaUsage
  rcases h with h | ⟨r, hr, hd⟩
  · rw [h]
  · rw [hr]
    simp [hd]

theorem claim8_usage_fresh_identity_witness :
    getQuotaUsage 5 "2026-10-11"
        (fun s => if s = "u1" then some ⟨"2026-10-10", 3⟩ else none) "u1"
      = ⟨0, 5, 5⟩ :=
  claim8_usage_fresh_identity 5 "2026-10-11"
    (fun s => if s = "u1" then some ⟨"2026-10-10", 3⟩ else none) "u1"
    (Or.inr ⟨⟨"2026-10-10", 3⟩, by decide, by decide⟩)

/-! Section: job store and orchestrator — `src/services/veoService.js`

`jobStore` maps a job id to a record whose fields are written incrementally by
`updateJobStatus` merges.  A JS object field that may be absent is embedded as
an `Option` field (`none` = the key is absent).  Timestamps (`createdAt`,
`completedAt`, ISO strings in the source, parsed back to milliseconds by
`cleanupOldJobs` via `new Date(...).getTime()`) are embedded as milliseconds;
an absent `createdAt` parses to `NaN`, for which every `>` comparison is
false — embedded as the `none` branch of the sweep. -/

inductive Status where
  | pending
  | processing
  | completed
  | failed
deriving DecidableEq, Repr

/-- The `result` attached on COMPLETED: `{videoUri, signedUrl, expiresAt}`
(veoService.js:514-518 / 523-527). -/
structure GenResult where
  videoUri : String
  signedUrl : String
  expiresAt : Int
deriving DecidableEq, Repr

structure Job where
  jobId : String
  status : Option Status := none
  mode : Option String := none
  createdAt : Option Int := none
  userId : Option String := none
  userEmail : Option String := none
  params : Option String := none
  result : Option GenResult := none
  error : Option String := none
  completedAt : Option Int := none
deriving DecidableEq, Repr

/-- An `updates` object passed to `updateJobStatus`; `none` = key absent. -/
structure JobUpdate where
  status : Option Status := none
  mode : Option String := none
  createdAt : Option Int := none
  userId : Option String := none
  userEmail : Option String := none
  params : Option String := none
  result : Option GenResult := none
  error : Option String := none
  completedAt : Option Int := none
deriving DecidableEq, Repr

def JobStore : Type := String → Option Job

/-- The spread `{ ...existing, ...updates, jobId }` (veoService.js:600):
per field, a key present in `updates` wins; otherwise the existing value
(if any) is kept; `jobId` is always set. -/
def applyUpdate (jobId : String) (e : Job) (u : JobUpdate) : Job where
  jobId := jobId
  status := match u.status with | some v => some v | none => e.status
  mode := match u.mode with | some v => some v | none => e.mode
  createdAt := match u.createdAt with | some v => some v | none => e.createdAt
  userId := match u.userId with | some v => some v | none => e.userId
  userEmail := match u.userEmail with | some v => some v | none => e.userEmail
  params := match u.params with | some v => some v | none => e.params
  result := match u.result with | some v => some v | none => e.result
  error := match u.error with | some v => some v | none => e.error
  completedAt := match u.completedAt with | some v => some v | none => e.completedAt

/-- Embeds `VeoService.updateJobStatus` (veoService.js:598-601):
`const existing = jobStore.get(jobId) || {}; jobStore.set(jobId,
{...existing, ...updates, jobId})`. -/
def updateJobStatus (js : JobStore) (jobId : String) (u : JobUpdate) : JobStore :=
  let existing := match js jobId with
    | some e => e
    | none => { jobId := jobId }
  fun s => if s = jobId then some (applyUpdate jobId existing u) else js s

/-- Embeds `VeoService.getJobStatus` (veoService.js:608-618): `null` when the id is
unknown; when a `userId` is supplied (JS-truthy, i.e. non-null and non-empty)
and the job's `userId` differs (strict `!==`, in particular when the job has
no `userId` field), also `null`, so a non-owner cannot distinguish the job
from a missing one. -/
def getJobStatus (js : JobStore) (jobId : String) (userId : Option String) :
    Option Job :=
  match js jobId with
  | none => none
  | some job =>
    match userId with
    | some uid => if uid ≠ "" ∧ job.userId ≠ some uid then none else some job
    | none => some job

/-- Embeds `VeoService.cleanupOldJobs` (veoService.js:623-631): deletes every job
with `now - new Date(job.createdAt).getTime() > maxAgeMs` (default
`24*60*60*1000`); a job without `createdAt` yields `NaN`, every comparison
with `NaN` is false, so it is kept. -/
def cleanupOldJobs (now maxAgeMs : Int) (js : JobStore) : JobStore :=
  fun s =>
    match js s with
    | none => none
    | some job =>
      match job.createdAt with
      | some t => if maxAgeMs < now - t then none else some job
      | none => some job

/-- The initial record stored by `generateFromText` (veoService.js:319-326)
(`generateFromImage` is identical with mode `IMAGE_TO_VIDEO`). -/
def createUpd (mode : String) (ts : Int) (uid email prompt : String) : JobUpdate where
  status := some .pending
  mode := some mode
  createdAt := some ts
  userId := some uid
  userEmail := some email
  params := some prompt

/-- Embeds `updateJobStatus(jobId, { status: 'PROCESSING' })` (veoService.js:395). -/
def processingUpd : JobUpdate where
  status := some .processing

/-- Embeds `updateJobStatus(jobId, { status: 'COMPLETED', result, completedAt })`
(veoService.js:419-423). -/
def completedUpd (res : GenResult) (ts : Int) : JobUpdate where
  status := some .completed
  result := some res
  completedAt := some ts

/-- Embeds `updateJobStatus(jobId, { status: 'FAILED', error, completedAt })`
(veoService.js:331-335). -/
def failedUpd (msg : String) (ts : Int) : JobUpdate where
  status := some .failed
  error := some msg
  completedAt := some ts

/-- Job records reachable through the transitions the orchestrator issues for
one job: creation (PENDING), then the detached task's PROCESSING merge, then
exactly one terminal merge (COMPLETED with a result, or FAILED with an error
message from the catch handler).  The status guards record the sequencing of
the source: PROCESSING is set synchronously at the start of
`executeGeneration`, and the terminal updates are only issued afterwards. -/
inductive JobReachable : Job → Prop where
  | created (jobId mode : String) (ts : Int) (uid email prompt : String) :
      JobReachable (applyUpdate jobId { jobId := jobId }
        (createUpd mode ts uid email prompt))
  | processing {j : Job} : JobReachable j → j.status = some .pending →
      JobReachable (applyUpdate j.jobId j processingUpd)
  | completed {j : Job} (res : GenResult) (ts : Int) :
      JobReachable j → j.status = some .processing →
      JobReachable (applyUpdate j.jobId j (completedUpd res ts))
  | failed {j : Job} (msg : String) (ts : Int) :
      JobReachable j → j.status = some .processing →
      JobReachable (applyUpdate j.jobId j (failedUpd msg ts))

/-- Claim C5: along the defined lifecycle transitions, `result` and `error` are
both absent while the status is PENDING or PROCESSING; on COMPLETED exactly
the `result` is present; on FAILED exactly the `error` is present. -/
theorem claim5_result_error_exclusive (j : Job) (h : JobReachable j) :
    (j.status = some .pending ∨ j.status = some .processing →
       j.result = none ∧ j.error = none)
    ∧ (j.status = some .completed → j.result.isSome ∧ j.error = none)
    ∧ (j.status = some .failed → j.error.isSome ∧ j.result = none) := by
  induction h with
  | created jobId mode ts uid email prompt =>
    simp [applyUpdate, createUpd]
  | processing hj hst ih =>
    have hre := ih.1 (Or.inl hst)
    simp [applyUpdate, processingUpd, hre.1, hre.2]
  | completed res ts hj hst ih =>
    have hre := ih.1 (Or.inr hst)
    simp [applyUpdate, completedUpd, hre.1, hre.2]
  | failed msg ts hj hst ih =>
    have hre := ih.1 (Or.inr hst)
    simp [applyUpdate, failedUpd, hre.1, hre.2]

theorem claim5_result_error_exclusive_witness :
    ((applyUpdate "j1"
        (applyUpdate "j1"
          (applyUpdate "j1" { jobId := "j1" } (createUpd "TEXT_TO_VIDEO" 0 "u" "e" "p"))
          processingUpd)
        (completedUpd ⟨"gs://b/v.mp4", "https://signed", 3600⟩ 9)).status
          = some .pending
      ∨ (applyUpdate "j1"
        (applyUpdate "j1"
          (applyUpdate "j1" { jobId := "j1" } (createUpd "TEXT_TO_VIDEO" 0 "u" "e" "p"))
          processingUpd)
        (completedUpd ⟨"gs://b/v.mp4", "https://signed", 3600⟩ 9)).status
          = some .processing →
      (applyUpdate "j1"
        (applyUpdate "j1"
          (applyUpdate "j1" { jobId := "j1" } (createUpd "TEXT_TO_VIDEO" 0 "u" "e" "p"))
          processingUpd)
        (completedUpd ⟨"gs://b/v.mp4", "https://signed", 3600⟩ 9)).result = none
      ∧ (applyUpdate "j1"
        (applyUpdate "j1"
          (applyUpdate "j1" { jobId := "j1" } (createUpd "TEXT_TO_VIDEO" 0 "u" "e" "p"))
          processingUpd)
        (completedUpd ⟨"gs://b/v.mp4", "https://signed", 3600⟩ 9)).error = none)
    ∧ ((applyUpdate "j1"
        (applyUpdate "j1"
          (applyUpdate "j1" { jobId := "j1" } (createUpd "TEXT_TO_VIDEO" 0 "u" "e" "p"))
          processingUpd)
        (completedUpd ⟨"gs://b/v.mp4", "https://signed", 3600⟩ 9)).status
          = some .completed →
      (applyUpdate "j1"
        (applyUpdate "j1"
          (applyUpdate "j1" { jobId := "j1" } (createUpd "TEXT_TO_VIDEO" 0 "u" "e" "p"))
          processingUpd)
        (completedUpd ⟨"gs://b/v.mp4", "https://signed", 3600⟩ 9)).result.isSome
      ∧ (applyUpdate "j1"
        (applyUpdate "j1"
          (applyUpdate "j1" { jobId := "j1" } (createUpd "TEXT_TO_VIDEO" 0 "u" "e" "p"))
          processingUpd)
        (completedUpd ⟨"gs://b/v.mp4", "https://signed", 3600⟩ 9)).error = none)
    ∧ ((applyUpdate "j1"
        (applyUpdate "j1"
          (applyUpdate "j1" { jobId := "j1" } (createUpd "TEXT_TO_VIDEO" 0 "u" "e" "p"))
          processingUpd)
        (completedUpd ⟨"gs://b/v.mp4", "https://signed", 3600⟩ 9)).status
          = some .failed →
      (applyUpdate "j1"
        (applyUpdate "j1"
          (applyUpdate "j1" { jobId := "j1" } (createUpd "TEXT_TO_VIDEO" 0 "u" "e" "p"))
          processingUpd)
        (completedUpd ⟨"gs://b/v.mp4", "https://signed", 3600⟩ 9)).error.isSome
      ∧ (applyUpdate "j1"
        (applyUpdate "j1"
          (applyUpdate "j1" { jobId := "j1" } (createUpd "TEXT_TO_VIDEO" 0 "u" "e" "p"))
          processingUpd)
        (completedUpd ⟨"gs://b/v.mp4", "https://signed", 3600⟩ 9)).result = none) :=
  claim5_result_error_exclusive _
    (JobReachable.completed ⟨"gs://b/v.mp4", "https://signed", 3600⟩ 9
      (JobReachable.processing
        (JobReachable.created "j1" "TEXT_TO_VIDEO" 0 "u" "e" "p") (by decide))
      (by decide))

/-- Claim C4: `getJobStatus` with a supplied (non-empty) caller identity returns
`none` both for an existing job owned by a different identity and for an
unknown job id — the two cases are observationally identical. -/
theorem claim4_get_scoped (js : JobStore) (jobId jobId2 uid : String) (job : Job)
    (huid : uid ≠ "") :
    (js jobId = some job → job.userId ≠ some uid →
       getJobStatus js jobId (some uid) = none)
    ∧ (js jobId2 = none → getJobStatus js jobId2 (some uid) = none) := by
  constructor
  · intro hj hne
    simp [getJobStatus, hj, huid, hne]
  · intro hj
    simp [getJobStatus, hj]

theorem claim4_get_scoped_witness :
    getJobStatus
        (fun s => if s = "j1" then some { jobId := "j1", userId := some "alice" }
                  else none) "j1" (some "bob") = none
    ∧ getJobStatus
        (fun s => if s = "j1" then some { jobId := "j1", userId := some "alice" }
                  else none) "nosuch" (some "bob") = none := by
  have h := claim4_get_scoped
    (fun s => if s = "j1" then some { jobId := "j1", userId := some "alice" }
              else none) "j1" "nosuch" "bob" { jobId := "j1", userId := some "alice" }
    (by decide)
  exact ⟨h.1 (by decide) (by decide), h.2 (by decide)⟩

/-- Claim C9: the sweep removes exactly the jobs whose `createdAt` lies more
than `maxAgeMs` before `now` — with no condition on the job's status — and
keeps every job within the window. -/
theorem claim9_sweep_by_age (js : JobStore) (now maxAgeMs : Int) (jobId : String)
    (job : Job) (t : Int) (hj : js jobId = some job) (ht : job.createdAt = some t) :
    (maxAgeMs < now - t → cleanupOldJobs now maxAgeMs js jobId = none)
    ∧ (now - t ≤ maxAgeMs → cleanupOldJobs now maxAgeMs js jobId = some job) := by
  unfold cleanupOldJobs
  rw [hj]
  dsimp only
  rw [ht]
  dsimp only
  constructor
  · intro h
    rw [if_pos h]
  · intro h
    rw [if_neg (by omega)]

theorem claim9_sweep_by_age_witness :
    cleanupOldJobs 90000000 86400000
        (fun s => if s = "j1" then
            some { jobId := "j1", status := some .processing, createdAt := some 0 }
          else none) "j1" = none :=
  (claim9_sweep_by_age
      (fun s => if s = "j1" then
          some { jobId := "j1", status := some .processing, createdAt := some 0 }
        else none) 90000000 86400000 "j1"
      { jobId := "j1", status := some .processing, createdAt := some 0 } 0
      (by decide) (by decide)).1 (by decide)

/-- Claim C10: `updateJobStatus` is an upsert with per-field merge: on an
existing record every field not named in the update is preserved; on an
absent job id it creates a record containing only the supplied fields plus
the job id — so a late FAILED update re-creates a record whose `createdAt`
and `userId` are absent, and the age-based sweep never removes such a
record. -/
theorem claim10_transition_upsert (js : JobStore) (jobId : String) (u : JobUpdate)
    (e : Job) (msg : String) (ts now maxAgeMs : Int) :
    (js jobId = some e →
       updateJobStatus js jobId u jobId = some (applyUpdate jobId e u)
       ∧ (u.status = none → (applyUpdate jobId e u).status = e.status)
       ∧ (u.createdAt = none → (applyUpdate jobId e u).createdAt = e.createdAt)
       ∧ (u.userId = none → (applyUpdate jobId e u).userId = e.userId)
       ∧ (u.result = none → (applyUpdate jobId e u).result = e.result)
       ∧ (u.error = none → (applyUpdate jobId e u).error = e.error)
       ∧ (u.completedAt = none → (applyUpdate jobId e u).completedAt = e.completedAt))
    ∧ (js jobId = none →
       updateJobStatus js jobId (failedUpd msg ts) jobId
         = some { jobId := jobId, status := some .failed, error := some msg,
                  completedAt := some ts }
       ∧ cleanupOldJobs now maxAgeMs (updateJobStatus js jobId (failedUpd msg ts)) jobId
         = some { jobId := jobId, status := some .failed, error := some msg,
                  completedAt := some ts }) := by
  constructor
  · intro hj
    refine ⟨by simp [updateJobStatus, hj], ?_, ?_, ?_, ?_, ?_, ?_⟩ <;>
      (intro h; simp [applyUpdate, h])
  · intro hj
    constructor
    · simp [updateJobStatus, hj, applyUpdate, failedUpd]
    · simp [cleanupOldJobs, updateJobStatus, hj, applyUpdate, failedUpd]

theorem claim10_transition_upsert_witness :
    updateJobStatus (fun _ => none) "j1" (failedUpd "provider exploded" 99) "j1"
      = some { jobId := "j1", status := some .failed,
               error := some "provider exploded", completedAt := some 99 }
    ∧ cleanupOldJobs 1000000000 0
        (updateJobStatus (fun _ => none) "j1" (failedUpd "provider exploded" 99)) "j1"
      = some { jobId := "j1", status := some .failed,
               error := some "provider exploded", completedAt := some 99 } :=
  (claim10_transition_upsert (fun _ => none) "j1" { status := some .processing }
    { jobId := "x" } "provider exploded" 99 1000000000 0).2 rfl

/-! Section: duration normalization and the parameter forwarding allowlist -/

/-- Embeds `config.veo.limits.allowedDurations` (config.js). -/
def allowedDurations : List Int := [4, 6, 8]

/-- Embeds `config.veo.defaults.durationSeconds` (config.js). -/
def defaultDurationSeconds : Int := 5

/-- Embeds `VeoService.normalizeDuration` (veoService.js:296-304):
`requested = duration || default` (JS: `0` and `undefined` are falsy), then
`allowed.reduce((prev, curr) => |curr - requested| < |prev - requested| ?
curr : prev)`.  `reduce` without an initial value starts from the first
element, so the strict `<` keeps the earlier element on a tie; the `[]`
branch is dead for the fixed configuration list. -/
def normalizeDuration (duration : Option Int) : Int :=
  let requested := match duration with
    | some d => if d = 0 then defaultDurationSeconds else d
    | none => defaultDurationSeconds
  match allowedDurations with
  | [] => requested
  | a :: rest =>
    rest.foldl (fun prev curr =>
      if (curr - requested).natAbs < (prev - requested).natAbs then curr else prev) a

/-- Embeds `config.veo.forwardParams` (config.js): the per-parameter forwarding
toggles, each derived from an environment variable. -/
structure ForwardParams where
  fps : Bool
  seed : Bool
  negativePrompt : Bool
  generateAudio : Bool
  resolution : Bool
deriving DecidableEq, Repr

/-- The request-body fields the route handler passes to the service
(videoRoutes.js:99-111); `none` = the caller did not supply the field. -/
structure GenParams where
  prompt : String := ""
  durationSeconds : Option Int := none
  aspectRatio : Option String := none
  fps : Option Int := none
  quality : Option String := none
  seed : Option Int := none
  negativePrompt : Option String := none
  generateAudio : Option Bool := none
deriving DecidableEq, Repr

/-- The `parameters` object sent to the provider's `predict` call. -/
structure RequestParameters where
  aspectRatio : String
  durationSeconds : Int
  fps : Option Int := none
  negativePrompt : Option String := none
  seed : Option Int := none
  generateAudio : Option Bool := none
  resolution : Option String := none
deriving DecidableEq, Repr

/-- Embeds `config.veo.defaults.aspectRatio` (config.js). -/
def defaultAspectRatio : String := "16:9"

/-- Embeds `VeoService.buildRequestParameters` (veoService.js:263-291).  Truthiness
guards are embedded exactly: `params.fps` (a number) is truthy iff nonzero,
`params.negativePrompt` (a string) iff nonempty; `params.seed !== undefined
&& params.seed !== null` and `params.generateAudio !== undefined` are
`isSome`; `resolution` is set to `'1080p'` iff the toggle is on and
`params.quality === 'high'`. -/
def buildRequestParameters (cfg : ForwardParams) (p : GenParams) :
    RequestParameters where
  aspectRatio := match p.aspectRatio with
    | some s => if s = "" then defaultAspectRatio else s
    | none => defaultAspectRatio
  durationSeconds := normalizeDuration p.durationSeconds
  fps := if cfg.fps then
      (match p.fps with
       | some v => if v = 0 then none else some v
       | none => none)
    else none
  negativePrompt := if cfg.negativePrompt then
      (match p.negativePrompt with
       | some s => if s = "" then none else some s
       | none => none)
    else none
  seed := if cfg.seed then p.seed else none
  generateAudio := if cfg.generateAudio then p.generateAudio else none
  resolution := if cfg.resolution ∧ p.quality = some "high" then some "1080p" else none

/-! Section: admission pipelines — `src/routes/videoRoutes.js`

The observable admission steps of a generation request, in the order the
source executes them.  `rateAllowed` is the verdict of the
`videoGenerationLimiter` middleware; `textEnabled` / `imageEnabled` are
`config.veo.supportedModes.TEXT_TO_VIDEO` / `.IMAGE_TO_VIDEO` as read by
`isModeSupported` (veoService.js:230-232). -/

inductive Event where
  | rateLimitCheck
  | modeCheck
  | quotaConsume
  | jobCreate
deriving DecidableEq, Repr

inductive RouteResult where
  | rateLimited
  | quotaExceeded
  | unsupportedMode
  | accepted (jobId : String)
deriving DecidableEq, Repr

/-- Embeds `POST /v1/video/text` (videoRoutes.js:88-136): after the rate limiter,
the handler calls `quotaService.consumeQuota(user.uid)` (line 97) and only
then `veoService.generateFromText` (line 120), which performs the
`isModeSupported('TEXT_TO_VIDEO')` check (veoService.js:312) and stores the
PENDING record (veoService.js:319-326).  It then invokes `executeGeneration`
without awaiting it (line 329); an un-awaited async call still runs
synchronously up to its first `await`, so `executeGeneration` merges
`{status: 'PROCESSING'}` (line 395) and dispatches the provider `predict`
call (line 410) before `return { jobId }` (line 338) executes.  The job
store returned here is therefore the state at the creating call's return:
the PENDING insert followed by the PROCESSING merge.  The trace records the
four admission steps, all of which precede that synchronous suffix. -/
def textRoute (textEnabled rateAllowed : Bool) (limit : Nat)
    (today uid email prompt jobId : String) (ts : Int)
    (qst : QuotaStore) (js : JobStore) :
    RouteResult × QuotaStore × JobStore × List Event :=
  if rateAllowed then
    match consumeQuota limit today qst uid with
    | (_, .error _) => (.quotaExceeded, qst, js, [.rateLimitCheck, .quotaConsume])
    | (qst', .ok _) =>
      if textEnabled then
        (.accepted jobId, qst',
         updateJobStatus
           (updateJobStatus js jobId (createUpd "TEXT_TO_VIDEO" ts uid email prompt))
           jobId processingUpd,
         [.rateLimitCheck, .quotaConsume, .modeCheck, .jobCreate])
      else
        (.unsupportedMode, qst', js, [.rateLimitCheck, .quotaConsume, .modeCheck])
  else (.rateLimited, qst, js, [.rateLimitCheck])

/-- Embeds `POST /v1/video/image` (videoRoutes.js:143-196): after the rate limiter,
the handler checks `isModeSupported('IMAGE_TO_VIDEO')` (line 151) before
`consumeQuota` (line 156); `generateFromImage` then repeats the mode check
(veoService.js:347) and stores the PENDING record, and the un-awaited
`executeImageGeneration` runs synchronously to its first `await`, merging
PROCESSING (veoService.js:441) and dispatching `predict` (line 458) before
the creating call returns. -/
def imageRoute (imageEnabled rateAllowed : Bool) (limit : Nat)
    (today uid email prompt jobId : String) (ts : Int)
    (qst : QuotaStore) (js : JobStore) :
    RouteResult × QuotaStore × JobStore × List Event :=
  if rateAllowed then
    if imageEnabled then
      match consumeQuota limit today qst uid with
      | (_, .error _) =>
        (.quotaExceeded, qst, js, [.rateLimitCheck, .modeCheck, .quotaConsume])
      | (qst', .ok _) =>
        if imageEnabled then
          (.accepted jobId, qst',
           updateJobStatus
             (updateJobStatus js jobId (createUpd "IMAGE_TO_VIDEO" ts uid email prompt))
             jobId processingUpd,
           [.rateLimitCheck, .modeCheck, .quotaConsume, .modeCheck, .jobCreate])
        else
          (.unsupportedMode, qst', js,
           [.rateLimitCheck, .modeCheck, .quotaConsume, .modeCheck])
    else (.unsupportedMode, qst, js, [.rateLimitCheck, .modeCheck])
  else (.rateLimited, qst, js, [.rateLimitCheck])

/-- Claim C2, counterexample: on the text route, an ordinary admitted request
executes its admission steps in the order rate-limit check, quota consume,
mode-support check, job creation — not the claimed order with the
mode-support check before the quota consume. -/
theorem claim2_admission_order_counterexample :
    (textRoute true true 50 "2026-10-11" "u1" "u1@example.com" "A cat" "j1" 0
        (fun _ => none) (fun _ => none)).2.2.2
      = [.rateLimitCheck, .quotaConsume, .modeCheck, .jobCreate]
    ∧ (textRoute true true 50 "2026-10-11" "u1" "u1@example.com" "A cat" "j1" 0
        (fun _ => none) (fun _ => none)).2.2.2
      ≠ [.rateLimitCheck, .modeCheck, .quotaConsume, .jobCreate] := by
  decide

/-- Claim C2, amended: on the text route the admission order is rate-limit
check, quota consume, mode-support check, job creation (quota is consumed
before the mode check; `TEXT_TO_VIDEO` is hard-enabled in the configuration,
so that check never fails in a deployable configuration); on the image route
the claimed order holds: a request for the disabled image mode fails with
`UnsupportedMode` before quota is consumed, leaving the quota ledger (and the
job store) unchanged. -/
theorem claim2_admission_order_amended (limit : Nat)
    (today uid email prompt jobId : String) (ts : Int)
    (qst : QuotaStore) (js : JobStore)
    (hq : (getQuotaUsage limit today qst uid).used < limit) :
    (textRoute true true limit today uid email prompt jobId ts qst js).2.2.2
      = [.rateLimitCheck, .quotaConsume, .modeCheck, .jobCreate]
    ∧ imageRoute false true limit today uid email prompt jobId ts qst js
      = (.unsupportedMode, qst, js, [.rateLimitCheck, .modeCheck]) := by
  constructor
  · have hok := consumeQuota_ok limit today qst uid hq
    unfold textRoute
    rw [if_pos rfl, hok]
    rfl
  · rfl

theorem claim2_admission_order_amended_witness :
    (textRoute true true 50 "2026-10-11" "u2" "u2@example.com" "A dog" "j2" 0
        (fun _ => none) (fun _ => none)).2.2.2
      = [.rateLimitCheck, .quotaConsume, .modeCheck, .jobCreate]
    ∧ imageRoute false true 50 "2026-10-11" "u2" "u2@example.com" "A dog" "j2" 0
        (fun _ => none) (fun _ => none)
      = (.unsupportedMode, (fun _ => none), (fun _ => none),
         [.rateLimitCheck, .modeCheck]) :=
  claim2_admission_order_amended 50 "2026-10-11" "u2" "u2@example.com" "A dog" "j2" 0
    (fun _ => none) (fun _ => none) (by decide)

/-- Claim C3, counterexample: at the moment the creating call returns for a
concrete admitted text request, the owner's read of the fresh job yields
status PROCESSING, not PENDING — the un-awaited `executeGeneration` has
already run synchronously to its first `await`, merging PROCESSING
(veoService.js:395) and dispatching the provider call (line 410) before
`generateFromText` returns. -/
theorem claim3_pending_counterexample :
    (getJobStatus
        (textRoute true true 50 "2026-10-11" "u3" "u3@example.com" "A bird" "j3" 7
          (fun _ => none) (fun _ => none)).2.2.1 "j3" (some "u3")).map Job.status
      = some (some .processing)
    ∧ (getJobStatus
        (textRoute true true 50 "2026-10-11" "u3" "u3@example.com" "A bird" "j3" 7
          (fun _ => none) (fun _ => none)).2.2.1 "j3" (some "u3")).map Job.status
      ≠ some (some .pending) := by
  decide

/-- Claim C3, amended: an admitted text request inserts a record with status
PENDING and the creating call returns the fresh job id synchronously; but
before that return the un-awaited detached task has already executed its
synchronous prefix — the PROCESSING merge and the dispatch of the provider
call — so at the moment the creating call returns the job is retrievable by
its owner with status PROCESSING (all creation fields intact), not PENDING;
PENDING is observable only between the insert and that merge. -/
theorem claim3_create_processing_at_return (limit : Nat)
    (today uid email prompt jobId : String) (ts : Int)
    (qst : QuotaStore) (js : JobStore)
    (hq : (getQuotaUsage limit today qst uid).used < limit)
    (hfresh : js jobId = none) :
    (textRoute true true limit today uid email prompt jobId ts qst js).1
      = .accepted jobId
    ∧ updateJobStatus js jobId (createUpd "TEXT_TO_VIDEO" ts uid email prompt) jobId
      = some { jobId := jobId, status := some .pending,
               mode := some "TEXT_TO_VIDEO", createdAt := some ts,
               userId := some uid, userEmail := some email,
               params := some prompt }
    ∧ getJobStatus
        (textRoute true true limit today uid email prompt jobId ts qst js).2.2.1
        jobId (some uid)
      = some { jobId := jobId, status := some .processing,
               mode := some "TEXT_TO_VIDEO", createdAt := some ts,
               userId := some uid, userEmail := some email,
               params := some prompt } := by
  have hok := consumeQuota_ok limit today qst uid hq
  unfold textRoute
  rw [if_pos rfl, hok]
  dsimp only
  refine ⟨rfl, ?_, ?_⟩
  · simp [updateJobStatus, hfresh, applyUpdate, createUpd]
  · simp [getJobStatus, updateJobStatus, hfresh, applyUpdate, createUpd, processingUpd]

theorem claim3_create_processing_at_return_witness :
    (textRoute true true 50 "2026-10-11" "u4" "u4@example.com" "A whale" "j4" 7
        (fun _ => none) (fun _ => none)).1 = .accepted "j4"
    ∧ updateJobStatus (fun _ => none) "j4"
        (createUpd "TEXT_TO_VIDEO" 7 "u4" "u4@example.com" "A whale") "j4"
      = some { jobId := "j4", status := some .pending,
               mode := some "TEXT_TO_VIDEO", createdAt := some 7,
               userId := some "u4", userEmail := some "u4@example.com",
               params := some "A whale" }
    ∧ getJobStatus
        (textRoute true true 50 "2026-10-11" "u4" "u4@example.com" "A whale" "j4" 7
          (fun _ => none) (fun _ => none)).2.2.1 "j4" (some "u4")
      = some { jobId := "j4", status := some .processing,
               mode := some "TEXT_TO_VIDEO", createdAt := some 7,
               userId := some "u4", userEmail := some "u4@example.com",
               params := some "A whale" } :=
  claim3_create_processing_at_return 50 "2026-10-11" "u4" "u4@example.com" "A whale"
    "j4" 7 (fun _ => none) (fun _ => none) (by decide) rfl

/-- Claim C6: `normalizeDuration` returns a member of the allowed-duration set
minimizing absolute distance to the requested value (so it neither clamps
nor rejects), and on the spec's examples: 5 ↦ 4, 7 ↦ 6, 4 ↦ 4 (ties resolve
to the earlier list element via the strict `<` in the reduce). -/
theorem claim6_duration_nearest_allowed :
    (∀ d : Int, d ≠ 0 →
       normalizeDuration (some d) ∈ allowedDurations
       ∧ ∀ a ∈ allowedDurations,
           (normalizeDuration (some d) - d).natAbs ≤ (a - d).natAbs)
    ∧ normalizeDuration (some 5) = 4
    ∧ normalizeDuration (some 7) = 6
    ∧ normalizeDuration (some 4) = 4 := by
  refine ⟨fun d hd => ⟨?_, ?_⟩, by decide, by decide, by decide⟩
  · simp only [normalizeDuration, allowedDurations, List.foldl, if_neg hd]
    split_ifs <;> decide
  · intro a ha
    simp only [allowedDurations, List.mem_cons, List.not_mem_nil, or_false] at ha
    simp only [normalizeDuration, allowedDurations, List.foldl, if_neg hd]
    rcases ha with h | h | h <;> subst h <;> split_ifs <;> omega

theorem claim6_duration_nearest_allowed_witness :
    (normalizeDuration (some 10) - 10).natAbs ≤ ((4 : Int) - 10).natAbs :=
  (claim6_duration_nearest_allowed.1 10 (by decide)).2 4 (by decide)

/-- Claim C7, counterexample: an empty negative prompt is admitted by request
validation (`optional().isString().trim().isLength(max 500)` has no minimum,
and `trim()` can itself produce `""`), so with the forwarding toggle enabled
and the field supplied as `""` the claim's iff fails: the truthiness guard
`config.veo.forwardParams.negativePrompt && params.negativePrompt` drops the
parameter. -/
theorem claim7_forwarding_counterexample :
    ¬ ((buildRequestParameters ⟨true, true, true, true, true⟩
          { prompt := "A fox", negativePrompt := some "" }).negativePrompt.isSome
        ↔ (ForwardParams.negativePrompt ⟨true, true, true, true, true⟩
           ∧ (GenParams.negativePrompt
               { prompt := "A fox", negativePrompt := some "" }).isSome))
    ∧ (buildRequestParameters ⟨true, true, true, true, true⟩
        { prompt := "A fox", negativePrompt := some "" }).negativePrompt = none := by
  constructor
  · intro h
    have := h.2 (by constructor <;> decide)
    revert this
    decide
  · decide

/-- Claim C7, amended: fps (nonzero when supplied, which `isIn([24,30])`
validation guarantees), seed, the audio flag and resolution each appear in
the provider-call parameters iff the forwarding toggle is on and the caller
supplied the corresponding field (value passed through unchanged;
`resolution` keyed on `quality = "high"`, forwarded as `"1080p"`); the
negative prompt additionally requires the supplied string to be nonempty —
an empty supplied negative prompt is dropped by the truthiness guard even
with the toggle enabled, and a nonempty one passes through unchanged. -/
theorem claim7_forwarding_allowlist (cfg : ForwardParams) (p : GenParams)
    (hf : p.fps ≠ some 0) :
    ((buildRequestParameters cfg p).fps = if cfg.fps then p.fps else none)
    ∧ ((buildRequestParameters cfg p).fps.isSome ↔ cfg.fps ∧ p.fps.isSome)
    ∧ ((buildRequestParameters cfg p).seed = if cfg.seed then p.seed else none)
    ∧ ((buildRequestParameters cfg p).seed.isSome ↔ cfg.seed ∧ p.seed.isSome)
    ∧ ((buildRequestParameters cfg p).generateAudio
        = if cfg.generateAudio then p.generateAudio else none)
    ∧ ((buildRequestParameters cfg p).generateAudio.isSome
        ↔ cfg.generateAudio ∧ p.generateAudio.isSome)
    ∧ ((buildRequestParameters cfg p).resolution
        = if cfg.resolution ∧ p.quality = some "high" then some "1080p" else none)
    ∧ ((buildRequestParameters cfg p).resolution.isSome
        ↔ cfg.resolution ∧ p.quality = some "high")
    ∧ ((buildRequestParameters cfg p).negativePrompt.isSome
        ↔ cfg.negativePrompt ∧ p.negativePrompt.isSome ∧ p.negativePrompt ≠ some "")
    ∧ (p.negativePrompt ≠ some "" →
        (buildRequestParameters cfg p).negativePrompt
          = if cfg.negativePrompt then p.negativePrompt else none) := by
  have hfps : (buildRequestParameters cfg p).fps = if cfg.fps then p.fps else none := by
    unfold buildRequestParameters
    dsimp only
    cases hp : p.fps with
    | none => cases cfg.fps <;> simp
    | some v =>
      have hv : ¬ v = 0 := fun h => hf (by rw [hp, h])
      cases cfg.fps <;> simp [hv]
  have hngiff : (buildRequestParameters cfg p).negativePrompt.isSome
      ↔ cfg.negativePrompt ∧ p.negativePrompt.isSome ∧ p.negativePrompt ≠ some "" := by
    unfold buildRequestParameters
    dsimp only
    cases hcf : cfg.negativePrompt with
    | false => cases hp : p.negativePrompt <;> simp
    | true =>
      cases hp : p.negativePrompt with
      | none => simp
      | some s => by_cases hs : s = "" <;> simp [hs]
  have hng : p.negativePrompt ≠ some "" →
      (buildRequestParameters cfg p).negativePrompt
        = if cfg.negativePrompt then p.negativePrompt else none := by
    intro hn
    unfold buildRequestParameters
    dsimp only
    cases hp : p.negativePrompt with
    | none => cases cfg.negativePrompt <;> simp
    | some s =>
      have hs : ¬ s = "" := fun h => hn (by rw [hp, h])
      cases cfg.negativePrompt <;> simp [hs]
  refine ⟨hfps, ?_, rfl, ?_, rfl, ?_, rfl, ?_, hngiff, hng⟩
  · rw [hfps]
    cases cfg.fps <;> simp
  · show (if cfg.seed then p.seed else none).isSome ↔ _
    cases cfg.seed <;> simp
  · show (if cfg.generateAudio then p.generateAudio else none).isSome ↔ _
    cases cfg.generateAudio <;> simp
  · show (if cfg.resolution ∧ p.quality = some "high" then some "1080p"
        else none).isSome ↔ _
    by_cases h : cfg.resolution ∧ p.quality = some "high" <;> simp [h]

theorem claim7_forwarding_allowlist_witness :
    (buildRequestParameters ⟨true, true, true, true, true⟩
        { prompt := "A fox", fps := some 24, quality := some "high",
          seed := some 0, negativePrompt := some "no text",
          generateAudio := some false }).seed = some 0
    ∧ (buildRequestParameters ⟨true, true, true, true, true⟩
        { prompt := "A fox", fps := some 24, quality := some "high",
          seed := some 0, negativePrompt := some "no text",
          generateAudio := some false }).resolution = some "1080p"
    ∧ (buildRequestParameters ⟨true, true, true, true, true⟩
        { prompt := "A fox", fps := some 24, quality := some "high",
          seed := some 0, negativePrompt := some "no text",
          generateAudio := some false }).negativePrompt = some "no text" := by
  have h := claim7_forwarding_allowlist ⟨true, true, true, true, true⟩
    { prompt := "A fox", fps := some 24, quality := some "high",
      seed := some 0, negativePrompt := some "no text",
      generateAudio := some false } (by decide)
  exact ⟨h.2.2.1.trans (by decide),
         h.2.2.2.2.2.2.1.trans (by decide),
         (h.2.2.2.2.2.2.2.2.2 (by decide)).trans (by decide)⟩

end Veo
